import Mathlib

/-!
Verification of the conversational-pipeline core of the voice-ai-landscape
demo (pipecat-agent and livekit-agent).  The remote HTTP services (Ollama,
Speaches) are modelled by an explicit environment recording the outcome of
each request the code can issue; the provisioning helpers of
`pipecat-agent/model_utils.py`, the session entry point
`pipecat-agent/bot.py:run_bot`, and the health probes of
`pipecat-agent/server.py` become pure functions of that environment which
additionally return the trace of network requests they issue.
-/

/-- Outcome of one HTTP round trip as seen by `httpx`:
a response with a status code, an `httpx.TimeoutException`, or another
`httpx.HTTPError` (transport failure). -/
inductive HttpOutcome where
  | status (code : Nat)
  | timeout
  | transportError
  deriving DecidableEq, Repr

/-- The exception classes the provisioning helpers re-raise:
`httpx.TimeoutException` or any other `httpx.HTTPError` / `Exception`. -/
inductive EnsureError where
  | timeoutErr
  | httpErr
  deriving DecidableEq, Repr

/-- Network requests the pipecat agent can issue during provisioning and
health checking.  `getTags` is Ollama catalog query `GET /api/tags`;
`pullModel` is `POST /api/pull`; `postSpeachesModel` is the Speaches
provisioning request `POST /v1/models/\x7bmodel_id\x7d`; `getSpeachesModels`
is the Speaches catalog query `GET /v1/models` (issued only by the health
probe, never by `ensure_speaches_models`). -/
inductive Request where
  | getTags
  | pullModel (name : String)
  | postSpeachesModel (modelId : String)
  | getSpeachesModels
  deriving DecidableEq, Repr

/-- `httpx.Response.raise_for_status`: raises `httpx.HTTPStatusError`
(an `httpx.HTTPError`) exactly on an error status code (4xx/5xx). -/
def raiseForStatus (code : Nat) : Except EnsureError Unit :=
  if 400 ≤ code then .error .httpErr else .ok ()

/-- Environment for `ensure_ollama_model`: the outcome of the catalog query
`GET /api/tags`, the list of model names in its JSON body when it succeeds,
and the outcome of `POST /api/pull` should it be issued. -/
structure OllamaEnv where
  tags : HttpOutcome
  catalog : List String
  pull : HttpOutcome
  deriving Repr

/-- Environment for `ensure_speaches_models`: the outcomes of the two
provisioning posts `POST /v1/models/\x7bstt_model\x7d` and
`POST /v1/models/\x7btts_model\x7d`. -/
structure SpeachesEnv where
  sttResp : HttpOutcome
  ttsResp : HttpOutcome
  deriving Repr

/-- What one call to a provisioning helper did: the timeout the
`httpx.AsyncClient` was configured with, the requests issued in order, and
the outcome (`ok` for a normal return, `error` for a raised exception). -/
structure EnsureResult where
  clientTimeout : Nat
  requests : List Request
  outcome : Except EnsureError Unit
  deriving Repr

/-- Request trace and outcome of `model_utils.ensure_ollama_model`:
queries `GET /api/tags`, raises on its failure; if `model` is among the
returned names (`any(m.get("name") == model for m in models)`) it returns
at once, otherwise it issues `POST /api/pull` and raises on an error
status, timeout or transport error. -/
def ensureOllamaCore (env : OllamaEnv) (model : String) :
    List Request × Except EnsureError Unit :=
  match env.tags with
  | .timeout => ([.getTags], .error .timeoutErr)
  | .transportError => ([.getTags], .error .httpErr)
  | .status c =>
    match raiseForStatus c with
    | .error e => ([.getTags], .error e)
    | .ok () =>
      if model ∈ env.catalog then
        ([.getTags], .ok ())
      else
        match env.pull with
        | .timeout => ([.getTags, .pullModel model], .error .timeoutErr)
        | .transportError => ([.getTags, .pullModel model], .error .httpErr)
        | .status c2 =>
          match raiseForStatus c2 with
          | .error e => ([.getTags, .pullModel model], .error e)
          | .ok () => ([.getTags, .pullModel model], .ok ())

/-- `model_utils.ensure_ollama_model(base_url, model, timeout)`: constructs
an `httpx.AsyncClient` configured with `timeout`, then runs the
check-then-pull logic of `ensureOllamaCore` against it. -/
def ensure_ollama_model (env : OllamaEnv) (model : String) (timeout : Nat) :
    EnsureResult :=
  ⟨timeout, (ensureOllamaCore env model).1, (ensureOllamaCore env model).2⟩

/-- One Speaches provisioning post as handled by `ensure_speaches_models`:
status 200 logs "downloaded successfully", status 201 logs "already exists",
any other status goes through `raise_for_status`; a timeout or transport
error raises. -/
def speachesModelStep (resp : HttpOutcome) : Except EnsureError Unit :=
  match resp with
  | .timeout => .error .timeoutErr
  | .transportError => .error .httpErr
  | .status c =>
    if c = 200 then .ok ()
    else if c = 201 then .ok ()
    else raiseForStatus c

/-- Request trace and outcome of `model_utils.ensure_speaches_models`:
posts `POST /v1/models/\x7bstt_model\x7d`, then on success
`POST /v1/models/\x7btts_model\x7d`; no catalog query is ever issued. -/
def ensureSpeachesCore (env : SpeachesEnv) (stt_model tts_model : String) :
    List Request × Except EnsureError Unit :=
  match speachesModelStep env.sttResp with
  | .error e => ([.postSpeachesModel stt_model], .error e)
  | .ok () =>
    match speachesModelStep env.ttsResp with
    | .error e =>
      ([.postSpeachesModel stt_model, .postSpeachesModel tts_model], .error e)
    | .ok () =>
      ([.postSpeachesModel stt_model, .postSpeachesModel tts_model], .ok ())

/-- `model_utils.ensure_speaches_models(base_url, stt_model, tts_model,
timeout)`: constructs an `httpx.AsyncClient` configured with `timeout`,
then runs the two provisioning posts of `ensureSpeachesCore` against it. -/
def ensure_speaches_models (env : SpeachesEnv) (stt_model tts_model : String)
    (timeout : Nat) : EnsureResult :=
  ⟨timeout, (ensureSpeachesCore env stt_model tts_model).1,
    (ensureSpeachesCore env stt_model tts_model).2⟩

/-- The Python default argument `timeout: float = 600.0` of both
provisioning helpers, in seconds; `bot.run_bot` calls them without a
timeout argument, so this default applies. -/
def defaultEnsureTimeout : Nat := 600

/-- A chat message as built by `bot.run_bot` (a dict with `role` and
`content` keys). -/
structure Message where
  role : String
  content : String
  deriving DecidableEq, Repr

/-- The literal content of the second seed message of `bot.run_bot`. -/
def greetDirective : String :=
  "Start by greeting the user warmly and introducing yourself as a voice assistant."

/-- The `messages` list built by `bot.run_bot` before the aggregators and
pipeline are created: the system instruction plus the greeting directive,
both with role `system`. -/
def seedMessages (systemInstruction : String) : List Message :=
  [⟨"system", systemInstruction⟩, ⟨"system", greetDirective⟩]

/-- The stages of the `Pipeline([...])` built in `bot.run_bot`, in source
order. -/
inductive Stage where
  | transportInput
  | stt
  | userContextAggregator
  | llm
  | tts
  | transportOutput
  | assistantContextAggregator
  deriving DecidableEq, Repr

/-- The `PipelineParams` passed to `PipelineTask` in `bot.run_bot`. -/
structure PipelineParams where
  allow_interruptions : Bool
  enable_metrics : Bool
  enable_usage_metrics : Bool
  deriving DecidableEq, Repr

/-- The objects `bot.run_bot` builds once (and only once) the
provisioning gate has passed: the stage chain of the `Pipeline`, the seed
`messages`, and the task parameters. -/
structure BotResources where
  pipeline : List Stage
  messages : List Message
  params : PipelineParams
  deriving DecidableEq, Repr

/-- Frames `bot.run_bot` queues on the pipeline task from its transport
event handlers. -/
inductive QueuedFrame where
  | llmMessages (msgs : List Message)
  | endFrame
  deriving DecidableEq, Repr

/-- Configuration `bot.run_bot` reads from the environment (module-level
constants of `bot.py`). -/
structure BotConfig where
  ollamaModel : String
  sttModel : String
  ttsModel : String
  systemInstruction : String
  deriving Repr

/-- The remote-service environment one `run_bot` invocation runs against. -/
structure BotEnv where
  ollama : OllamaEnv
  speaches : SpeachesEnv
  deriving Repr

/-- `bot.run_bot`: first awaits `ensure_ollama_model` then
`ensure_speaches_models`; any exception from either is re-raised before the
transport, the services, the aggregators, the `Pipeline` or the
`PipelineTask` are constructed.  On success it builds the seven-stage
pipeline, the seed messages and the task parameters
(`allow_interruptions=True`, metrics enabled). -/
def run_bot (env : BotEnv) (cfg : BotConfig) : Except EnsureError BotResources :=
  match (ensure_ollama_model env.ollama cfg.ollamaModel defaultEnsureTimeout).outcome with
  | .error e => .error e
  | .ok () =>
    match (ensure_speaches_models env.speaches cfg.sttModel cfg.ttsModel
        defaultEnsureTimeout).outcome with
    | .error e => .error e
    | .ok () =>
      .ok
        { pipeline :=
            [.transportInput, .stt, .userContextAggregator, .llm, .tts,
              .transportOutput, .assistantContextAggregator]
          messages := seedMessages cfg.systemInstruction
          params :=
            { allow_interruptions := true
              enable_metrics := true
              enable_usage_metrics := true } }

/-- The network requests one `run_bot` invocation issues: those of
`ensure_ollama_model`, followed, if it returned normally, by those of
`ensure_speaches_models`. -/
def runBotRequests (env : BotEnv) (cfg : BotConfig) : List Request :=
  let r1 := ensure_ollama_model env.ollama cfg.ollamaModel defaultEnsureTimeout
  match r1.outcome with
  | .error _ => r1.requests
  | .ok () =>
    r1.requests ++
      (ensure_speaches_models env.speaches cfg.sttModel cfg.ttsModel
        defaultEnsureTimeout).requests

/-- The network requests issued when `n` sessions start against the same
environment.  `model_utils` keeps no module-level state and each `run_bot`
invocation constructs its own fresh `httpx.AsyncClient`, so every session —
whether started concurrently with or after the others — issues exactly the
requests of a lone invocation; the multiset of requests of `n` session
starts is `n` copies of one session trace. -/
def sessionsRequests (n : Nat) (env : BotEnv) (cfg : BotConfig) : List Request :=
  match n with
  | 0 => []
  | k + 1 => runBotRequests env cfg ++ sessionsRequests k env cfg

/-- Count of Ollama pull (provisioning) requests in a trace. -/
def countPulls (reqs : List Request) : Nat :=
  reqs.countP fun r => match r with | .pullModel _ => true | _ => false

/-- Count of Ollama catalog queries (`GET /api/tags`) in a trace. -/
def countTagQueries (reqs : List Request) : Nat :=
  reqs.countP fun r => match r with | .getTags => true | _ => false

/-- The `on_client_connected` handler of `bot.run_bot`: queues one
`LLMMessagesFrame` carrying the seed messages, and nothing else. -/
def on_client_connected (systemInstruction : String) : List QueuedFrame :=
  [.llmMessages (seedMessages systemInstruction)]

/-- `server.check_ollama_health`: `GET /api/tags`; returns
`status_code == 200`; every exception is caught, logged and mapped to
`False`.  A total function: it never raises. -/
def check_ollama_health (probe : HttpOutcome) : Bool :=
  match probe with
  | .status c => c == 200
  | .timeout => false
  | .transportError => false

/-- `server.check_speaches_health`: `GET /v1/models`; returns
`status_code == 200`; every exception is caught, logged and mapped to
`False`. -/
def check_speaches_health (probe : HttpOutcome) : Bool :=
  match probe with
  | .status c => c == 200
  | .timeout => false
  | .transportError => false

/-- The JSON body returned by `server.health_check`. -/
structure HealthReport where
  status : String
  ollama : Bool
  speaches : Bool
  deriving DecidableEq, Repr

/-- The two probe outcomes `server.health_check` observes. -/
structure HealthEnv where
  ollamaProbe : HttpOutcome
  speachesProbe : HttpOutcome
  deriving Repr

/-- `server.health_check`: runs both probes, computes
`all(checks.values())`, and returns status `healthy` when both passed,
`degraded` otherwise.  A total function of the probe outcomes: it returns
normally for every combination. -/
def health_check (env : HealthEnv) : HealthReport :=
  let o := check_ollama_health env.ollamaProbe
  let s := check_speaches_health env.speachesProbe
  { status := if o && s then "healthy" else "degraded"
    ollama := o
    speaches := s }

/-- State of a constructed TTS service object: the fields
`OpenAITTSService.__init__` stores, with `voiceField` standing for the
`_voice` attribute the requests are made with. -/
structure TTSServiceState where
  apiKey : String
  baseUrl : String
  model : String
  voiceField : String
  deriving DecidableEq, Repr

/-- Modelled from the spec: `OpenAITTSService.__init__` is Pipecat vendor
code, not under `src/`; per the spec, the parent class validates its
`voice` argument against the fixed list of OpenAI voice identifiers and
rejects any other identifier (construction fails). -/
def openAIValidVoices : List String :=
  ["alloy", "echo", "fable", "onyx", "nova", "shimmer"]

/-- Modelled from the spec: the vendor `OpenAITTSService.__init__` —
succeeds, storing the requested voice in `_voice`, exactly when the voice
passes validation. -/
def openAITTSInit (apiKey baseUrl model voice : String) :
    Option TTSServiceState :=
  if openAIValidVoices.contains voice then
    some ⟨apiKey, baseUrl, model, voice⟩
  else
    none

/-- `kokoro_tts.KokoroTTSService.__init__`: stores the requested Kokoro
voice, initializes the parent with the placeholder voice `alloy` so that
validation passes, then overwrites the `_voice` attribute with the Kokoro
voice. -/
def kokoroTTSInit (apiKey baseUrl model voice : String) :
    Option TTSServiceState :=
  match openAITTSInit apiKey baseUrl model "alloy" with
  | none => none
  | some st => some { st with voiceField := voice }

/-- Completion status of a Turn in the conversation context. -/
inductive TurnStatus where
  | complete
  | truncated
  deriving DecidableEq, Repr

/-- A Turn of the conversation context (role, content, status), tagged with
the turn id that `SynthesizedAudio` frames carry. -/
structure Turn where
  id : Nat
  role : String
  content : String
  status : TurnStatus
  deriving DecidableEq, Repr

/-- A synthesized-audio frame tagged with the id of the turn it voices. -/
structure SynthesizedAudio where
  turnId : Nat
  deriving DecidableEq, Repr

/-- Modelled from the spec: the interruption controller itself lives in
the Pipecat framework (enabled by `bot.run_bot` via
`PipelineParams(allow_interruptions=True)`) and is not under `src/`.  Per
the spec, on new user speech while turn `tid` is being synthesized it
(1) stops further synthesis for `tid`, (2) purges queued `SynthesizedAudio`
frames for `tid` from the output queue, and (3) marks that assistant Turn
`truncated` in the context — never deleting it. -/
def handleInterruption (ctx : List Turn) (tid : Nat)
    (outputQueue : List SynthesizedAudio) :
    List Turn × List SynthesizedAudio :=
  (ctx.map fun t =>
      if t.id = tid ∧ t.role = "assistant" then
        { t with status := .truncated }
      else t,
    outputQueue.filter fun f => f.turnId ≠ tid)

/-! ### Helper lemmas -/

theorem ensureOllamaCore_requests (env : OllamaEnv) (model : String) :
    (ensureOllamaCore env model).1 = [.getTags] ∨
    (ensureOllamaCore env model).1 = [.getTags, .pullModel model] := by
  obtain ⟨tags, catalog, pull⟩ := env
  cases tags with
  | timeout => exact .inl rfl
  | transportError => exact .inl rfl
  | status c =>
    by_cases h400 : 400 ≤ c
    · exact .inl (by simp [ensureOllamaCore, raiseForStatus, h400])
    · by_cases hm : model ∈ catalog
      · exact .inl (by simp [ensureOllamaCore, raiseForStatus, h400, hm])
      · cases pull with
        | timeout => exact .inr (by simp [ensureOllamaCore, raiseForStatus, h400, hm])
        | transportError => exact .inr (by simp [ensureOllamaCore, raiseForStatus, h400, hm])
        | status c2 =>
          by_cases h2 : 400 ≤ c2
          · exact .inr (by simp [ensureOllamaCore, raiseForStatus, h400, hm, h2])
          · exact .inr (by simp [ensureOllamaCore, raiseForStatus, h400, hm, h2])

theorem getTags_mem_ensureOllamaCore (env : OllamaEnv) (model : String) :
    Request.getTags ∈ (ensureOllamaCore env model).1 := by
  rcases ensureOllamaCore_requests env model with h | h <;> simp [h]

theorem ensureSpeachesCore_requests (env : SpeachesEnv) (stt tts : String) :
    (ensureSpeachesCore env stt tts).1 = [.postSpeachesModel stt] ∨
    (ensureSpeachesCore env stt tts).1 =
      [.postSpeachesModel stt, .postSpeachesModel tts] := by
  unfold ensureSpeachesCore
  cases h1 : speachesModelStep env.sttResp with
  | error e => exact .inl rfl
  | ok u =>
    cases u
    cases h2 : speachesModelStep env.ttsResp with
    | error e => exact .inr rfl
    | ok u => cases u; exact .inr rfl

theorem countP_sessionsRequests (n : Nat) (env : BotEnv) (cfg : BotConfig)
    (p : Request → Bool) :
    (sessionsRequests n env cfg).countP p =
      n * (runBotRequests env cfg).countP p := by
  induction n with
  | zero => simp [sessionsRequests]
  | succ k ih =>
    simp only [sessionsRequests, List.countP_append, ih, Nat.succ_mul]
    omega

theorem getTags_mem_runBotRequests (env : BotEnv) (cfg : BotConfig) :
    Request.getTags ∈ runBotRequests env cfg := by
  unfold runBotRequests ensure_ollama_model
  cases h : (ensureOllamaCore env.ollama cfg.ollamaModel).2 with
  | error e => exact getTags_mem_ensureOllamaCore env.ollama cfg.ollamaModel
  | ok u =>
    cases u
    exact List.mem_append_left _
      (getTags_mem_ensureOllamaCore env.ollama cfg.ollamaModel)

theorem run_bot_error_of_ollama_error (env : BotEnv) (cfg : BotConfig)
    (e : EnsureError)
    (ho : (ensure_ollama_model env.ollama cfg.ollamaModel
      defaultEnsureTimeout).outcome = .error e) :
    run_bot env cfg = .error e := by
  unfold run_bot
  rw [ho]

theorem run_bot_error_of_speaches_error (env : BotEnv) (cfg : BotConfig)
    (e : EnsureError)
    (ho : (ensure_ollama_model env.ollama cfg.ollamaModel
      defaultEnsureTimeout).outcome = .ok ())
    (hs : (ensure_speaches_models env.speaches cfg.sttModel cfg.ttsModel
      defaultEnsureTimeout).outcome = .error e) :
    run_bot env cfg = .error e := by
  unfold run_bot
  rw [ho, hs]

theorem run_bot_ok_shape (env : BotEnv) (cfg : BotConfig) (res : BotResources)
    (h : run_bot env cfg = .ok res) :
    res = ⟨[.transportInput, .stt, .userContextAggregator, .llm, .tts,
        .transportOutput, .assistantContextAggregator],
      seedMessages cfg.systemInstruction, ⟨true, true, true⟩⟩ := by
  unfold run_bot at h
  cases ho : (ensure_ollama_model env.ollama cfg.ollamaModel
      defaultEnsureTimeout).outcome with
  | error e => rw [ho] at h; exact absurd h (by simp)
  | ok u =>
    cases u
    cases hs : (ensure_speaches_models env.speaches cfg.sttModel cfg.ttsModel
        defaultEnsureTimeout).outcome with
    | error e => rw [ho, hs] at h; exact absurd h (by simp)
    | ok u =>
      cases u
      rw [ho, hs] at h
      exact (Except.ok.inj h).symm

theorem check_ollama_health_true_iff (p : HttpOutcome) :
    check_ollama_health p = true ↔ p = .status 200 := by
  cases p <;> simp [check_ollama_health]

theorem check_speaches_health_true_iff (p : HttpOutcome) :
    check_speaches_health p = true ↔ p = .status 200 := by
  cases p <;> simp [check_speaches_health]

/-! ### Claim theorems -/

/-- Claim C1: all-or-nothing provisioning gate.  `run_bot` returns
resources only when both ensure calls returned normally; if
`ensure_ollama_model` raises, or it succeeds and `ensure_speaches_models`
raises, `run_bot` propagates exactly that failure and, the error branch of
`Except` carrying no `BotResources`, no pipeline, transport or stage
object is built for the session. -/
theorem run_bot_all_or_nothing_gate (env : BotEnv) (cfg : BotConfig) :
    (∀ res, run_bot env cfg = .ok res →
      (ensure_ollama_model env.ollama cfg.ollamaModel
          defaultEnsureTimeout).outcome = .ok () ∧
      (ensure_speaches_models env.speaches cfg.sttModel cfg.ttsModel
          defaultEnsureTimeout).outcome = .ok ()) ∧
    (∀ e, (ensure_ollama_model env.ollama cfg.ollamaModel
        defaultEnsureTimeout).outcome = .error e →
      run_bot env cfg = .error e) ∧
    (∀ e, (ensure_ollama_model env.ollama cfg.ollamaModel
        defaultEnsureTimeout).outcome = .ok () →
      (ensure_speaches_models env.speaches cfg.sttModel cfg.ttsModel
          defaultEnsureTimeout).outcome = .error e →
      run_bot env cfg = .error e) := by
  refine ⟨?_, ?_, ?_⟩
  · intro res hres
    unfold run_bot at hres
    cases ho : (ensure_ollama_model env.ollama cfg.ollamaModel
        defaultEnsureTimeout).outcome with
    | error e => rw [ho] at hres; exact absurd hres (by simp)
    | ok u =>
      cases u
      cases hs : (ensure_speaches_models env.speaches cfg.sttModel cfg.ttsModel
          defaultEnsureTimeout).outcome with
      | error e => rw [ho, hs] at hres; exact absurd hres (by simp)
      | ok u => cases u; exact ⟨rfl, rfl⟩
  · exact fun e he => run_bot_error_of_ollama_error env cfg e he
  · exact fun e ho hs => run_bot_error_of_speaches_error env cfg e ho hs

/-- Witness for C1: with the Ollama catalog query timing out, `run_bot`
fails with the timeout error and builds nothing. -/
theorem run_bot_all_or_nothing_gate_witness :
    run_bot ⟨⟨.timeout, [], .status 200⟩, ⟨.status 200, .status 200⟩⟩
      ⟨"llama3.2:3b", "Systran/faster-distil-whisper-small.en",
        "speaches-ai/Kokoro-82M-v1.0-ONNX", "sys"⟩ = .error .timeoutErr :=
  (run_bot_all_or_nothing_gate _ _).2.1 .timeoutErr rfl

/-- Counterexample to C2 as stated: two sessions starting concurrently
against an environment where the Ollama model is absent and the pull
succeeds perform two pull (provisioning) operations, not exactly one —
`model_utils` has no de-duplication table and each `run_bot` invocation
issues its own requests from its own fresh client. -/
theorem single_flight_counterexample :
    countPulls (sessionsRequests 2
      ⟨⟨.status 200, [], .status 200⟩, ⟨.status 201, .status 201⟩⟩
      ⟨"llama3.2:3b", "Systran/faster-distil-whisper-small.en",
        "speaches-ai/Kokoro-82M-v1.0-ONNX", "sys"⟩) = 2 ∧ (2 : Nat) ≠ 1 := by
  constructor
  · rfl
  · decide

/-- Claim C2 amended: there is no single-flight de-duplication — each of
`n` concurrently starting sessions performs its own network provisioning
operations, so the pull count (and every other request count) of `n`
session starts is `n` times that of a single session start, rather than
collapsing to one in-flight operation. -/
theorem no_single_flight_dedup (n : Nat) (env : BotEnv) (cfg : BotConfig) :
    countPulls (sessionsRequests n env cfg) =
      n * countPulls (runBotRequests env cfg) ∧
    countTagQueries (sessionsRequests n env cfg) =
      n * countTagQueries (runBotRequests env cfg) :=
  ⟨countP_sessionsRequests n env cfg _, countP_sessionsRequests n env cfg _⟩

/-- Counterexample to C3 as stated: `ensure_speaches_models` never queries
the Speaches model catalog — even when the service reports the model
already exists (status 201), a provisioning `POST /v1/models/...` request
is issued for each model and no catalog query appears in the trace. -/
theorem fast_path_counterexample :
    (ensure_speaches_models ⟨.status 201, .status 201⟩
        "Systran/faster-distil-whisper-small.en"
        "speaches-ai/Kokoro-82M-v1.0-ONNX" 600).requests =
      [.postSpeachesModel "Systran/faster-distil-whisper-small.en",
        .postSpeachesModel "speaches-ai/Kokoro-82M-v1.0-ONNX"] ∧
    Request.getSpeachesModels ∉
      (ensure_speaches_models ⟨.status 201, .status 201⟩
        "Systran/faster-distil-whisper-small.en"
        "speaches-ai/Kokoro-82M-v1.0-ONNX" 600).requests := by
  constructor
  · rfl
  · decide

/-- Claim C3 amended: the catalog-first fast path holds for the Ollama LLM
ensure only — `GET /api/tags` is issued first and, when the model is
listed, the call returns success with no pull request; the Speaches ensure
for the STT and TTS models never queries a catalog and always issues the
provisioning POST for each model, relying on the response status to detect
an already-present model. -/
theorem ensure_fast_path_amended (envO : OllamaEnv) (envS : SpeachesEnv)
    (model stt tts : String) (t : Nat) (c : Nat) :
    (envO.tags = .status c → c < 400 → model ∈ envO.catalog →
      ensure_ollama_model envO model t = ⟨t, [.getTags], .ok ()⟩) ∧
    (ensure_speaches_models envS stt tts t).requests.head? =
      some (.postSpeachesModel stt) ∧
    Request.getSpeachesModels ∉ (ensure_speaches_models envS stt tts t).requests ∧
    Request.getTags ∉ (ensure_speaches_models envS stt tts t).requests := by
  refine ⟨?_, ?_, ?_, ?_⟩
  · intro htags hlt hm
    have h400 : ¬ 400 ≤ c := by omega
    simp [ensure_ollama_model, ensureOllamaCore, htags, raiseForStatus, h400, hm,
      EnsureResult.mk.injEq]
  · rcases ensureSpeachesCore_requests envS stt tts with h | h <;>
      simp [ensure_speaches_models, h]
  · rcases ensureSpeachesCore_requests envS stt tts with h | h <;>
      simp [ensure_speaches_models, h]
  · rcases ensureSpeachesCore_requests envS stt tts with h | h <;>
      simp [ensure_speaches_models, h]

/-- Witness for the amended C3: with the model listed in the Ollama catalog
the ensure call returns success after the single catalog query, and the
Speaches ensure posts the provisioning requests with no catalog query. -/
theorem ensure_fast_path_amended_witness :
    ensure_ollama_model ⟨.status 200, ["llama3.2:3b"], .status 200⟩
        "llama3.2:3b" 600 = ⟨600, [.getTags], .ok ()⟩ ∧
    (ensure_speaches_models ⟨.status 200, .status 200⟩ "stt-m" "tts-m"
        600).requests.head? = some (.postSpeachesModel "stt-m") :=
  ⟨(ensure_fast_path_amended ⟨.status 200, ["llama3.2:3b"], .status 200⟩
      ⟨.status 200, .status 200⟩ "llama3.2:3b" "stt-m" "tts-m" 600 200).1
      rfl (by decide) (by decide),
    (ensure_fast_path_amended ⟨.status 200, ["llama3.2:3b"], .status 200⟩
      ⟨.status 200, .status 200⟩ "llama3.2:3b" "stt-m" "tts-m" 600 200).2.1⟩

/-- Claim C4: Speaches provisioning outcome mapping — status 200 (freshly
downloaded) and status 201 (already exists) both map to a normal return
(Available); an error status (4xx/5xx), a timeout or a transport error on
either model raises, and the whole ensure call returns normally exactly
when both posts map to success. -/
theorem speaches_outcome_mapping (c : Nat) (envS : SpeachesEnv)
    (stt tts : String) (t : Nat) :
    speachesModelStep (.status 200) = .ok () ∧
    speachesModelStep (.status 201) = .ok () ∧
    (400 ≤ c → speachesModelStep (.status c) = .error .httpErr) ∧
    speachesModelStep .timeout = .error .timeoutErr ∧
    speachesModelStep .transportError = .error .httpErr ∧
    ((ensure_speaches_models envS stt tts t).outcome = .ok () ↔
      speachesModelStep envS.sttResp = .ok () ∧
      speachesModelStep envS.ttsResp = .ok ()) := by
  refine ⟨rfl, rfl, ?_, rfl, rfl, ?_⟩
  · intro h
    have h200 : c ≠ 200 := by omega
    have h201 : c ≠ 201 := by omega
    simp [speachesModelStep, raiseForStatus, h200, h201, h]
  · unfold ensure_speaches_models ensureSpeachesCore
    cases h1 : speachesModelStep envS.sttResp with
    | error e => simp
    | ok u =>
      cases u
      cases h2 : speachesModelStep envS.ttsResp with
      | error e => simp
      | ok u => cases u; simp

/-- Witness for C4: both posts answering 201 (already exists) yields a
normal return, and a 404 on the STT post raises the HTTP error. -/
theorem speaches_outcome_mapping_witness :
    speachesModelStep (.status 404) = .error .httpErr ∧
    ((ensure_speaches_models ⟨.status 201, .status 201⟩ "stt-m" "tts-m"
        600).outcome = .ok () ↔
      speachesModelStep (HttpOutcome.status 201) = .ok () ∧
      speachesModelStep (HttpOutcome.status 201) = .ok ()) :=
  ⟨(speaches_outcome_mapping 404 ⟨.status 201, .status 201⟩ "stt-m" "tts-m"
      600).2.2.1 (by decide),
    (speaches_outcome_mapping 404 ⟨.status 201, .status 201⟩ "stt-m" "tts-m"
      600).2.2.2.2.2⟩

/-- Claim C5: bounded provisioning wait.  `run_bot` calls both ensure
functions without a timeout argument, so the Python default `600.0`
seconds configures each `httpx.AsyncClient`; a timeout of the remote
operation (catalog query or pull) raises `httpx.TimeoutException`, which
the helpers re-raise and `run_bot` propagates, so the session fails with
no pipeline built instead of waiting indefinitely. -/
theorem ensure_timeout_bounded (env : BotEnv) (cfg : BotConfig) :
    defaultEnsureTimeout = 600 ∧
    (ensure_ollama_model env.ollama cfg.ollamaModel
        defaultEnsureTimeout).clientTimeout = 600 ∧
    (ensure_speaches_models env.speaches cfg.sttModel cfg.ttsModel
        defaultEnsureTimeout).clientTimeout = 600 ∧
    (env.ollama.tags = .timeout →
      (ensure_ollama_model env.ollama cfg.ollamaModel
          defaultEnsureTimeout).outcome = .error .timeoutErr ∧
      run_bot env cfg = .error .timeoutErr) ∧
    (env.ollama.tags = .status 200 → cfg.ollamaModel ∉ env.ollama.catalog →
      env.ollama.pull = .timeout →
      run_bot env cfg = .error .timeoutErr) := by
  refine ⟨rfl, rfl, rfl, ?_, ?_⟩
  · intro h
    have ho : (ensure_ollama_model env.ollama cfg.ollamaModel
        defaultEnsureTimeout).outcome = .error .timeoutErr := by
      simp [ensure_ollama_model, ensureOllamaCore, h]
    exact ⟨ho, run_bot_error_of_ollama_error env cfg .timeoutErr ho⟩
  · intro htags hm hpull
    have ho : (ensure_ollama_model env.ollama cfg.ollamaModel
        defaultEnsureTimeout).outcome = .error .timeoutErr := by
      simp [ensure_ollama_model, ensureOllamaCore, htags, hpull, raiseForStatus, hm]
    exact run_bot_error_of_ollama_error env cfg .timeoutErr ho

/-- Witness for C5: a pull that exceeds the timeout makes `run_bot`
resolve to the timeout failure. -/
theorem ensure_timeout_bounded_witness :
    run_bot ⟨⟨.status 200, [], .timeout⟩, ⟨.status 200, .status 200⟩⟩
      ⟨"llama3.2:3b", "stt-m", "tts-m", "sys"⟩ = .error .timeoutErr :=
  (ensure_timeout_bounded
      ⟨⟨.status 200, [], .timeout⟩, ⟨.status 200, .status 200⟩⟩
      ⟨"llama3.2:3b", "stt-m", "tts-m", "sys"⟩).2.2.2.2
    rfl (by decide) rfl

/-- Claim C6: greet-first policy.  Whenever `run_bot` passes the
provisioning gate, the conversation context it builds is exactly the
system instruction followed by the synthetic greeting directive, both with
role `system` — so no user (or assistant) turn exists in the seeded
context — and the `on_client_connected` handler queues precisely this
seed as an `LLMMessagesFrame`, triggering the assistant to produce the
first utterance. -/
theorem greet_first_policy (env : BotEnv) (cfg : BotConfig)
    (res : BotResources) (h : run_bot env cfg = .ok res) :
    res.messages = seedMessages cfg.systemInstruction ∧
    (∀ m ∈ res.messages, m.role = "system") ∧
    Message.mk "system" greetDirective ∈ res.messages ∧
    (∀ m ∈ res.messages, m.role ≠ "user" ∧ m.role ≠ "assistant") ∧
    on_client_connected cfg.systemInstruction = [.llmMessages res.messages] := by
  have hres := run_bot_ok_shape env cfg res h
  have hmsg : res.messages = seedMessages cfg.systemInstruction := by
    rw [hres]
  refine ⟨hmsg, ?_, ?_, ?_, ?_⟩
  · rw [hmsg]; simp [seedMessages]
  · rw [hmsg]; simp [seedMessages]
  · rw [hmsg]; simp [seedMessages]
  · rw [hmsg]; rfl

/-- Witness for C6: a successful gate yields the two-message system seed,
containing the greeting directive, which the connect handler queues. -/
theorem greet_first_policy_witness :
    (⟨[.transportInput, .stt, .userContextAggregator, .llm, .tts,
        .transportOutput, .assistantContextAggregator],
      seedMessages "sys", ⟨true, true, true⟩⟩ : BotResources).messages =
        seedMessages "sys" ∧
    Message.mk "system" greetDirective ∈
      (⟨[.transportInput, .stt, .userContextAggregator, .llm, .tts,
          .transportOutput, .assistantContextAggregator],
        seedMessages "sys", ⟨true, true, true⟩⟩ : BotResources).messages ∧
    on_client_connected "sys" =
      [.llmMessages (⟨[.transportInput, .stt, .userContextAggregator, .llm,
          .tts, .transportOutput, .assistantContextAggregator],
        seedMessages "sys", ⟨true, true, true⟩⟩ : BotResources).messages] :=
  ⟨(greet_first_policy
      ⟨⟨.status 200, ["llama3.2:3b"], .status 200⟩, ⟨.status 200, .status 200⟩⟩
      ⟨"llama3.2:3b", "stt-m", "tts-m", "sys"⟩ _ rfl).1,
    (greet_first_policy
      ⟨⟨.status 200, ["llama3.2:3b"], .status 200⟩, ⟨.status 200, .status 200⟩⟩
      ⟨"llama3.2:3b", "stt-m", "tts-m", "sys"⟩ _ rfl).2.2.1,
    (greet_first_policy
      ⟨⟨.status 200, ["llama3.2:3b"], .status 200⟩, ⟨.status 200, .status 200⟩⟩
      ⟨"llama3.2:3b", "stt-m", "tts-m", "sys"⟩ _ rfl).2.2.2.2⟩

/-- Counterexample to C7 as stated: the model reaches Available on the
first session (fast path, catalog lists it), yet a second session start
issues the Ollama catalog query again — two tag queries across two
sessions instead of one; no process-wide status cache exists. -/
theorem provisioner_cache_counterexample :
    (ensure_ollama_model ⟨.status 200, ["llama3.2:3b"], .status 200⟩
        "llama3.2:3b" 600).outcome = .ok () ∧
    countTagQueries (sessionsRequests 2
      ⟨⟨.status 200, ["llama3.2:3b"], .status 200⟩, ⟨.status 201, .status 201⟩⟩
      ⟨"llama3.2:3b", "stt-m", "tts-m", "sys"⟩) = 2 ∧ (2 : Nat) ≠ 1 := by
  refine ⟨rfl, rfl, by decide⟩

/-- Claim C7 amended: model availability status is not cached anywhere —
every session start re-checks it, issuing at least one fresh Ollama
catalog query; across `n` session starts the catalog is queried `n` times
the per-session count, never skipped because a prior session observed the
model Available. -/
theorem no_cross_session_cache (n : Nat) (env : BotEnv) (cfg : BotConfig) :
    countTagQueries (sessionsRequests n env cfg) =
      n * countTagQueries (runBotRequests env cfg) ∧
    1 ≤ countTagQueries (runBotRequests env cfg) := by
  refine ⟨countP_sessionsRequests n env cfg _, ?_⟩
  have hmem := getTags_mem_runBotRequests env cfg
  exact List.countP_pos_iff.mpr ⟨.getTags, hmem, rfl⟩

/-- Claim C8: interruption truncates, never deletes.  After the
interruption of an in-flight assistant turn, the conversation context
still contains that turn — same role and content, status `truncated` — the
context has lost no entry, and no synthesized-audio frame carrying that
turn id remains for the output adapter; `run_bot` enables this controller
by building every task with `allow_interruptions=True`. -/
theorem interruption_truncates_never_deletes (ctx : List Turn) (tid : Nat)
    (q : List SynthesizedAudio) (t : Turn) (env : BotEnv) (cfg : BotConfig)
    (res : BotResources) (ht : t ∈ ctx) (hid : t.id = tid)
    (hrole : t.role = "assistant") (hrb : run_bot env cfg = .ok res) :
    Turn.mk tid t.role t.content .truncated ∈ (handleInterruption ctx tid q).1 ∧
    (handleInterruption ctx tid q).1.length = ctx.length ∧
    (∀ f ∈ (handleInterruption ctx tid q).2, f.turnId ≠ tid) ∧
    res.params.allow_interruptions = true := by
  refine ⟨?_, ?_, ?_, ?_⟩
  · refine List.mem_map.mpr ⟨t, ht, ?_⟩
    rw [if_pos ⟨hid, hrole⟩]
    obtain ⟨i, r, c, s⟩ := t
    simp only at hid hrole
    simp [hid, hrole]
  · exact List.length_map ctx _
  · intro f hf
    have := List.mem_filter.mp hf
    simpa using this.2
  · rw [run_bot_ok_shape env cfg res hrb]

/-- Witness for C8: interrupting assistant turn 1 mid-synthesis leaves it
in the context as truncated and purges its queued audio frames. -/
theorem interruption_truncates_never_deletes_witness :
    Turn.mk 1 (Turn.mk 1 "assistant" "hello there" .complete).role
        (Turn.mk 1 "assistant" "hello there" .complete).content .truncated ∈
      (handleInterruption
        [⟨0, "system", "sys", .complete⟩, ⟨1, "assistant", "hello there", .complete⟩]
        1 [⟨1⟩, ⟨1⟩]).1 ∧
    (handleInterruption
        [⟨0, "system", "sys", .complete⟩, ⟨1, "assistant", "hello there", .complete⟩]
        1 [⟨1⟩, ⟨1⟩]).1.length =
      [Turn.mk 0 "system" "sys" .complete,
        Turn.mk 1 "assistant" "hello there" .complete].length :=
  ⟨(interruption_truncates_never_deletes
      [⟨0, "system", "sys", .complete⟩, ⟨1, "assistant", "hello there", .complete⟩]
      1 [⟨1⟩, ⟨1⟩] ⟨1, "assistant", "hello there", .complete⟩
      ⟨⟨.status 200, ["llama3.2:3b"], .status 200⟩, ⟨.status 200, .status 200⟩⟩
      ⟨"llama3.2:3b", "stt-m", "tts-m", "sys"⟩ _
      (by decide) rfl rfl rfl).1,
    (interruption_truncates_never_deletes
      [⟨0, "system", "sys", .complete⟩, ⟨1, "assistant", "hello there", .complete⟩]
      1 [⟨1⟩, ⟨1⟩] ⟨1, "assistant", "hello there", .complete⟩
      ⟨⟨.status 200, ["llama3.2:3b"], .status 200⟩, ⟨.status 200, .status 200⟩⟩
      ⟨"llama3.2:3b", "stt-m", "tts-m", "sys"⟩ _
      (by decide) rfl rfl rfl).2.1⟩

/-- Claim C9: health degradation is never fatal.  `health_check` is a
total function of the two probe outcomes — it always returns one of the
two statuses — reporting `healthy` exactly when both probes observed an
HTTP 200 response; any exception inside a probe (timeout or transport
error) is absorbed into a `false` check for that service. -/
theorem health_degradation_never_fatal (env : HealthEnv) :
    ((health_check env).status = "healthy" ∨
      (health_check env).status = "degraded") ∧
    ((health_check env).status = "healthy" ↔
      env.ollamaProbe = .status 200 ∧ env.speachesProbe = .status 200) ∧
    ((health_check env).ollama = true ↔ env.ollamaProbe = .status 200) ∧
    ((health_check env).speaches = true ↔ env.speachesProbe = .status 200) ∧
    check_ollama_health .timeout = false ∧
    check_ollama_health .transportError = false ∧
    check_speaches_health .timeout = false ∧
    check_speaches_health .transportError = false := by
  obtain ⟨op, sp⟩ := env
  have hstat : (health_check ⟨op, sp⟩).status =
      if check_ollama_health op && check_speaches_health sp then "healthy"
      else "degraded" := rfl
  have ho : (health_check ⟨op, sp⟩).ollama = check_ollama_health op := rfl
  have hs : (health_check ⟨op, sp⟩).speaches = check_speaches_health sp := rfl
  refine ⟨?_, ?_, ?_, ?_, rfl, rfl, rfl, rfl⟩
  · rw [hstat]
    cases check_ollama_health op && check_speaches_health sp <;> simp
  · have i1 := check_ollama_health_true_iff op
    have i2 := check_speaches_health_true_iff sp
    rw [hstat]
    cases h1 : check_ollama_health op <;> cases h2 : check_speaches_health sp <;>
      simp_all
  · rw [ho]; exact check_ollama_health_true_iff op
  · rw [hs]; exact check_speaches_health_true_iff sp

/-- Witness for C9: with Ollama timing out and Speaches answering 200, the
endpoint still returns, reporting degraded. -/
theorem health_degradation_never_fatal_witness :
    ((health_check ⟨.timeout, .status 200⟩).status = "healthy" ∨
      (health_check ⟨.timeout, .status 200⟩).status = "degraded") ∧
    ((health_check ⟨.timeout, .status 200⟩).ollama = true ↔
      HttpOutcome.timeout = .status 200) :=
  ⟨(health_degradation_never_fatal ⟨.timeout, .status 200⟩).1,
    (health_degradation_never_fatal ⟨.timeout, .status 200⟩).2.2.1⟩

/-- Claim C10: the TTS voice override bypasses validation.  For every
voice string — including identifiers the vendor `OpenAITTSService` would
reject — constructing `KokoroTTSService` succeeds, the parent being
initialized with the placeholder voice `alloy`, and the resulting
service's effective `_voice` is the requested Kokoro voice. -/
theorem kokoro_voice_override (apiKey baseUrl model voice : String) :
    kokoroTTSInit apiKey baseUrl model voice =
      some ⟨apiKey, baseUrl, model, voice⟩ ∧
    (openAIValidVoices.contains voice = false →
      openAITTSInit apiKey baseUrl model voice = none) := by
  constructor
  · rfl
  · intro h
    unfold openAITTSInit
    rw [h]
    simp

/-- Witness for C10: the Kokoro voice `af_heart` is rejected by the
modelled parent constructor but accepted — and kept as the effective
voice — by `KokoroTTSService`. -/
theorem kokoro_voice_override_witness :
    kokoroTTSInit "not-needed" "http://speaches:8000/v1"
        "speaches-ai/Kokoro-82M-v1.0-ONNX" "af_heart" =
      some ⟨"not-needed", "http://speaches:8000/v1",
        "speaches-ai/Kokoro-82M-v1.0-ONNX", "af_heart"⟩ ∧
    openAITTSInit "not-needed" "http://speaches:8000/v1"
        "speaches-ai/Kokoro-82M-v1.0-ONNX" "af_heart" = none :=
  ⟨(kokoro_voice_override "not-needed" "http://speaches:8000/v1"
      "speaches-ai/Kokoro-82M-v1.0-ONNX" "af_heart").1,
    (kokoro_voice_override "not-needed" "http://speaches:8000/v1"
      "speaches-ai/Kokoro-82M-v1.0-ONNX" "af_heart").2 (by decide)⟩
